import Mathlib

/-!

# Verification of the slack-mcp-server request gateway

This file gives a shallow embedding of the core logic of
`slack_api_client.py` (class `SlackAPIClient`) and proves properties of it:

* the bounded retry / back-off loop of `_make_request` (lines 329-391),
* the rate-limit `Retry-After` handling (lines 353-364),
* the cursor pagination of `get_channels` (lines 491-507),
* the single-request user listing `get_users` (lines 619-677),
* the sensitivity denylists of `_is_sensitive_file` (lines 1626-1657),
* the four-way delivery strategy selection of `smart_upload` (lines 1763-1778),
* the credential selection of `_get_headers` (lines 238-246) and the
  token choice inside `_upload_as_file` (lines 1419-1432, 1475-1478),
* the snippet fallback logic of `_upload_as_snippet` (lines 1253-1329).

Python machine-level details (asyncio scheduling, the aiohttp session) are
abstracted away; each logical attempt outcome delivered by the remote is a
value of an explicit inductive type, and the loops become executable
recursions over those values.

-/

namespace SlackGateway

/-- Outcome of one physical attempt inside `_make_request`, as classified by
the source: a transport fault (`aiohttp.ClientError`, line 370), a body that
fails JSON parsing (lines 336-344), an ok=false response carrying a Slack
error code together with the optional parsed `Retry-After` header value
(lines 347-364), or an ok=true response (line 368). -/
inductive AttemptResponse
  | transportFault
  | badJson
  | apiError (code : String) (retryAfter : Option Nat)
  | ok (payload : Nat)
deriving DecidableEq

/-- Retry policy fields read by `_make_request`: `self.max_retries`,
`self.rate_limit_delay` and `self.exponential_backoff_base`
(lines 155-158; defaults 3, 1, 2). -/
structure RetryConfig where
  max_retries : Nat
  rate_limit_delay : Nat
  exponential_backoff_base : Nat
deriving DecidableEq

/-- Result of `_make_request`: either the successful payload, or a raised
`SlackAPIError` identified by its error code.  The `exhausted` flag is true
exactly for the raises that happen because the attempt budget ran out: the
rate-limited raise with the augmented suggestion (lines 358-364), the
network-error raise on the last attempt (lines 373-378), and the final raise
after the loop (lines 387-391). -/
inductive RequestResult
  | success (payload : Nat)
  | failure (errorCode : String) (exhausted : Bool)
deriving DecidableEq

/-- Trace of one `_make_request` run: how many physical attempts were made,
the sleeps performed between attempts (in order), and the final result. -/
structure RunResult where
  attempts : Nat
  sleeps : List Nat
  result : RequestResult
deriving DecidableEq

/-- The body of the `for attempt in range(self.max_retries)` loop of
`_make_request` (lines 330-391), starting at a given attempt index.
`responses i` is the outcome the remote produces for attempt `i`.
Mirrors the source case by case:

* ok=true: return immediately (line 368);
* JSON parse failure: raise `json_parse_error`, terminal (lines 340-344);
* ok=false with code `ratelimited`: sleep for the `Retry-After` value,
  defaulting to `self.rate_limit_delay` when the header is absent, and
  retry — unless this is the last attempt, in which case the error is
  raised with the exhaustion suggestion (lines 354-364);
* ok=false with any other code: raise it, terminal (line 364);
* transport fault: on the last attempt raise `network_error`
  (lines 373-378), otherwise sleep
  `rate_limit_delay * exponential_backoff_base ^ attempt` and retry
  (lines 380-382);
* loop exhausted without entering the body: raise `max_retries_exceeded`
  (lines 387-391). -/
def makeRequestFrom (cfg : RetryConfig) (responses : Nat → AttemptResponse)
    (attempt : Nat) : RunResult :=
  if _h : attempt < cfg.max_retries then
    match responses attempt with
    | .ok p => ⟨1, [], .success p⟩
    | .badJson => ⟨1, [], .failure "json_parse_error" false⟩
    | .apiError code retryAfter =>
      if code = "ratelimited" then
        if h2 : attempt < cfg.max_retries - 1 then
          ⟨(makeRequestFrom cfg responses (attempt + 1)).attempts + 1,
           retryAfter.getD cfg.rate_limit_delay ::
             (makeRequestFrom cfg responses (attempt + 1)).sleeps,
           (makeRequestFrom cfg responses (attempt + 1)).result⟩
        else ⟨1, [], .failure "ratelimited" true⟩
      else ⟨1, [], .failure code false⟩
    | .transportFault =>
      if h2 : attempt = cfg.max_retries - 1 then
        ⟨1, [], .failure "network_error" true⟩
      else
        ⟨(makeRequestFrom cfg responses (attempt + 1)).attempts + 1,
         cfg.rate_limit_delay * cfg.exponential_backoff_base ^ attempt ::
           (makeRequestFrom cfg responses (attempt + 1)).sleeps,
         (makeRequestFrom cfg responses (attempt + 1)).result⟩
  else ⟨0, [], .failure "max_retries_exceeded" true⟩
termination_by cfg.max_retries - attempt
decreasing_by
  all_goals omega

/-- One full `_make_request` run, starting at attempt index 0. -/
def makeRequest (cfg : RetryConfig) (responses : Nat → AttemptResponse) : RunResult :=
  makeRequestFrom cfg responses 0

/-- An attempt outcome is retryable when it is a transport fault or an
ok=false response with code `ratelimited` — the only two outcomes for which
`_make_request` can loop again. -/
def isRetryable (r : AttemptResponse) : Bool :=
  match r with
  | .transportFault => true
  | .apiError code _ => code = "ratelimited"
  | _ => false

theorem makeRequestFrom_attempts_le (cfg : RetryConfig)
    (responses : Nat → AttemptResponse) :
    ∀ k attempt, cfg.max_retries - attempt ≤ k →
      (makeRequestFrom cfg responses attempt).attempts ≤ cfg.max_retries - attempt := by
  intro k
  induction k with
  | zero =>
    intro attempt h
    have hge : ¬ attempt < cfg.max_retries := by omega
    unfold makeRequestFrom
    simp [hge]
  | succ k ih =>
    intro attempt h
    by_cases hlt : attempt < cfg.max_retries
    · unfold makeRequestFrom
      simp only [hlt, dif_pos]
      cases hres : responses attempt with
      | ok p => simp; omega
      | badJson => simp; omega
      | transportFault =>
        by_cases h2 : attempt = cfg.max_retries - 1
        · simp [h2]; omega
        · simp only [h2, dif_neg, not_false_iff]
          have := ih (attempt + 1) (by omega)
          simp
          omega
      | apiError code retryAfter =>
        by_cases hc : code = "ratelimited"
        · simp only [hc, if_pos]
          by_cases h2 : attempt < cfg.max_retries - 1
          · simp only [h2, dif_pos]
            have := ih (attempt + 1) (by omega)
            simp
            omega
          · simp [h2]; omega
        · simp [hc]; omega
    · unfold makeRequestFrom
      simp [hlt]

theorem makeRequestFrom_exhausts (cfg : RetryConfig)
    (responses : Nat → AttemptResponse) :
    ∀ k attempt, cfg.max_retries - attempt ≤ k →
      attempt < cfg.max_retries →
      (∀ i, attempt ≤ i → i < cfg.max_retries → isRetryable (responses i) = true) →
      (makeRequestFrom cfg responses attempt).attempts = cfg.max_retries - attempt ∧
      ((makeRequestFrom cfg responses attempt).result = .failure "ratelimited" true ∨
       (makeRequestFrom cfg responses attempt).result = .failure "network_error" true) := by
  intro k
  induction k with
  | zero => intro attempt h hlt _; omega
  | succ k ih =>
    intro attempt h hlt hall
    have hthis := hall attempt (le_refl _) hlt
    unfold makeRequestFrom
    simp only [hlt, dif_pos]
    cases hres : responses attempt with
    | ok p => rw [hres] at hthis; simp [isRetryable] at hthis
    | badJson => rw [hres] at hthis; simp [isRetryable] at hthis
    | transportFault =>
      by_cases h2 : attempt = cfg.max_retries - 1
      · simp [h2]; omega
      · simp only [h2, dif_neg, not_false_iff]
        have hrec := ih (attempt + 1) (by omega) (by omega)
          (fun i hi1 hi2 => hall i (by omega) hi2)
        constructor
        · have h1 := hrec.1
          omega
        · simpa using hrec.2
    | apiError code retryAfter =>
      rw [hres] at hthis
      simp only [isRetryable, decide_eq_true_eq] at hthis
      simp only [hthis, if_pos]
      by_cases h2 : attempt < cfg.max_retries - 1
      · simp only [h2, dif_pos]
        have hrec := ih (attempt + 1) (by omega) (by omega)
          (fun i hi1 hi2 => hall i (by omega) hi2)
        constructor
        · have h1 := hrec.1
          omega
        · simpa using hrec.2
      · simp [h2]; omega

/-- C1: for every retry policy with `max_retries = N ≥ 1`, if every attempt
outcome is retryable (a transport fault or a rate-limited response), then
`_make_request` performs exactly N attempts and then fails with an
exhaustion-marked error (the augmented rate-limited raise or the last-attempt
network-error raise); and for any outcome sequence whatsoever, the number of
attempts never exceeds N. -/
theorem retry_exhausts_after_max_attempts (cfg : RetryConfig)
    (responses : Nat → AttemptResponse)
    (hN : 1 ≤ cfg.max_retries)
    (hall : ∀ i, i < cfg.max_retries → isRetryable (responses i) = true) :
    (makeRequest cfg responses).attempts = cfg.max_retries ∧
    ((makeRequest cfg responses).result = .failure "ratelimited" true ∨
     (makeRequest cfg responses).result = .failure "network_error" true) ∧
    (∀ rs : Nat → AttemptResponse,
      (makeRequest cfg rs).attempts ≤ cfg.max_retries) := by
  have hmain := makeRequestFrom_exhausts cfg responses cfg.max_retries 0
    (by omega) (by omega) (fun i _ hi => hall i hi)
  refine ⟨by simpa [makeRequest] using hmain.1, by simpa [makeRequest] using hmain.2, ?_⟩
  intro rs
  have := makeRequestFrom_attempts_le cfg rs cfg.max_retries 0 (by omega)
  simpa [makeRequest] using this

/-- Response sequence where every attempt hits a transport fault. -/
def allTransportFaults : Nat → AttemptResponse := fun _ => .transportFault

/-- Witness for C1 at the default policy (3 attempts, base delay 1,
back-off factor 2): three transport faults yield exactly 3 attempts,
back-off sleeps [1, 2], and the exhausted network-error failure. -/
theorem retry_exhausts_after_max_attempts_witness :
    (makeRequest ⟨3, 1, 2⟩ allTransportFaults).attempts = 3 ∧
    ((makeRequest ⟨3, 1, 2⟩ allTransportFaults).result =
        .failure "ratelimited" true ∨
     (makeRequest ⟨3, 1, 2⟩ allTransportFaults).result =
        .failure "network_error" true) := by
  have h := retry_exhausts_after_max_attempts ⟨3, 1, 2⟩ allTransportFaults
    (by decide) (fun i _ => by simp [allTransportFaults, isRetryable])
  exact ⟨h.1, h.2.1⟩

/-- C2: when a rate-limited response carries a `Retry-After` value `d` and a
further attempt remains, the very next wait is exactly `d`, overriding the
computed exponential back-off; when the header is absent, the wait is the
policy's default `rate_limit_delay`. -/
theorem rate_limit_retry_after_overrides_backoff (cfg : RetryConfig)
    (responses : Nat → AttemptResponse) (attempt d : Nat)
    (h : attempt < cfg.max_retries - 1) :
    (responses attempt = .apiError "ratelimited" (some d) →
      (makeRequestFrom cfg responses attempt).sleeps.head? = some d) ∧
    (responses attempt = .apiError "ratelimited" none →
      (makeRequestFrom cfg responses attempt).sleeps.head? =
        some cfg.rate_limit_delay) := by
  have hlt : attempt < cfg.max_retries := by omega
  constructor
  · intro hres
    unfold makeRequestFrom
    simp [hlt, hres, h]
  · intro hres
    unfold makeRequestFrom
    simp [hlt, hres, h]

/-- Response sequence whose first attempt is rate-limited with
`Retry-After: 7` and whose later attempts succeed. -/
def rateLimitedThenOk : Nat → AttemptResponse := fun i =>
  if i = 0 then .apiError "ratelimited" (some 7) else .ok 0

/-- Witness for C2 at the default policy (base delay 1, factor 2): the remote
signals retry-after 7, and the wait before the next attempt is 7 seconds —
not the 2-second value `1 * 2 ^ 1` the back-off formula would give next. -/
theorem rate_limit_retry_after_overrides_backoff_witness :
    (0 < (3 : Nat) - 1) ∧
    (makeRequestFrom ⟨3, 1, 2⟩ rateLimitedThenOk 0).sleeps.head? = some 7 ∧
    (7 : Nat) ≠ 1 * 2 ^ 1 := by
  refine ⟨by decide, ?_, by decide⟩
  exact (rate_limit_retry_after_overrides_backoff ⟨3, 1, 2⟩ rateLimitedThenOk 0 7
    (by decide)).1 rfl

/-- Whether `sub` occurs as a contiguous substring of `s`
(Python's `sub in s` on strings). -/
def listContainsSub : List Char → List Char → Bool
  | [], sub => sub.isEmpty
  | a :: t, sub => List.isPrefixOf sub (a :: t) || listContainsSub t sub

/-- String form of `listContainsSub`. -/
def strContains (s sub : String) : Bool :=
  listContainsSub s.toList sub.toList

/-- Python `str.startswith` restricted to the ASCII names appearing here. -/
def pyStartsWith (s p : String) : Bool :=
  List.isPrefixOf p.toList s.toList

/-- Python `str.endswith` restricted to the ASCII names appearing here. -/
def pyEndsWith (s p : String) : Bool :=
  List.isSuffixOf p.toList s.toList

/-- Python `str.lower` restricted to the ASCII names appearing here. -/
def pyLower (s : String) : String :=
  String.mk (s.toList.map Char.toLower)

/-- Index of the last occurrence of a character in a list, if any. -/
def lastIdxOf (c : Char) : List Char → Option Nat
  | [] => none
  | a :: t =>
    match lastIdxOf c t with
    | some j => some (j + 1)
    | none => if a = c then some 0 else none

/-- Python `pathlib.PurePath.suffix` computed from the final path component:
the substring from the last dot onward, empty when the name has no dot, the
only dot is leading (hidden files such as `.ssh`) or the dot is trailing. -/
def pySuffix (nm : String) : String :=
  match lastIdxOf '.' nm.toList with
  | none => ""
  | some i =>
    if 0 < i ∧ i < nm.toList.length - 1 then String.mk (nm.toList.drop i)
    else ""

/-- A filesystem path as `pathlib.Path` exposes it: the `parts` tuple, whose
head is `"/"` for an absolute path.  `smart_upload` resolves the candidate
path before the sensitivity check (line 1734), so the paths modelled here are
absolute. -/
structure PyPath where
  parts : List String
deriving DecidableEq

/-- Joins path components with `/` separators. -/
def joinParts : List String → String
  | [] => ""
  | [a] => a
  | a :: rest => a ++ "/" ++ joinParts rest

/-- Python `str(path)`. -/
def pyPathStr (p : PyPath) : String :=
  match p.parts with
  | "/" :: rest => "/" ++ joinParts rest
  | ps => joinParts ps

/-- Python `path.name`: the final component (empty for the root path). -/
def pyName (p : PyPath) : String :=
  match p.parts with
  | ["/"] => ""
  | ps => (ps.getLast?).getD ""

/-- The `self.text_extensions` set of the client (lines 148-151). -/
def text_extensions : List String :=
  [".txt", ".md", ".json", ".csv", ".log", ".ini", ".cfg",
   ".yml", ".yaml", ".xml", ".py", ".js", ".html", ".css"]

/-- The `sensitive_extensions` set of `_is_sensitive_file` (line 1633). -/
def sensitive_extensions : List String :=
  [".key", ".pem", ".p12", ".jks", ".keystore"]

/-- The `sensitive_names` keyword set of `_is_sensitive_file` (line 1638). -/
def sensitive_names : List String :=
  ["passwd", "shadow", "private", "secrets", "credentials", "config",
   "settings", "token", "api_key", "password"]

/-- The `system_paths` prefix set of `_is_sensitive_file` (line 1643). -/
def system_paths : List String :=
  ["/etc", "/usr", "/sys", "/proc", "/var"]

/-- The `sensitive_dirs` path-segment set of `_is_sensitive_file` (line 1648). -/
def sensitive_dirs : List String :=
  [".ssh", ".aws", ".config", ".env", "credentials", "secrets"]

/-- The backup/temp suffix set of `_is_sensitive_file` (line 1653). -/
def sensitive_suffixes : List String :=
  [".bak", ".tmp", ".swp", "~", ".DS_Store"]

/-- The `_is_sensitive_file` check (lines 1626-1657): extension denylist on
the lowercased suffix, keyword denylist on the lowercased name, system
directory prefixes on the full path string, secret-bearing path segments,
and backup/temp-file name suffixes; true as soon as any denylist matches. -/
def isSensitiveFile (p : PyPath) : Bool :=
  sensitive_extensions.contains (pyLower (pySuffix (pyName p)))
  || sensitive_names.any (fun s => strContains (pyLower (pyName p)) s)
  || system_paths.any (fun sp => pyStartsWith (pyPathStr p) sp)
  || p.parts.any (fun part => sensitive_dirs.contains part)
  || sensitive_suffixes.any (fun pat => pyEndsWith (pyName p) pat)

/-- Size thresholds read by the upload code: `self.text_message`,
`self.snippet`, `self.standard`, `self.large` (lines 142-145;
defaults 50 KB, 1 MB, 100 MB, 1 GB). -/
structure UploadConfig where
  text_message : Nat
  snippet : Nat
  standard : Nat
  large : Nat
deriving DecidableEq

/-- The default thresholds: 51200, 1048576, 104857600 and 1073741824 bytes. -/
def defaultUploadConfig : UploadConfig :=
  ⟨51200, 1048576, 104857600, 1073741824⟩

/-- The delivery route `smart_upload` takes for a verified file: the
sensitivity rejection (lines 1738-1743) or one of the four strategies of the
if/elif chain (lines 1764-1778). -/
inductive UploadStrategy
  | sensitiveRejected
  | inlineText
  | codeSnippet
  | standardUpload
  | infoOnly
deriving DecidableEq

/-- Whether the file extension (lowercased suffix) is a known text type,
as computed by `smart_upload` via `file_ext in self.text_extensions`
(lines 1754, 1764). -/
def isTextExtension (p : PyPath) : Bool :=
  text_extensions.contains (pyLower (pySuffix (pyName p)))

/-- The strategy selection of `smart_upload` (lines 1737-1778): a sensitivity
match is rejected before any strategy; otherwise a known text extension below
`text_message` goes inline, else below `snippet` goes as a snippet, else
below `large` goes as a standard file upload, else only the file's info is
shared. -/
def smartUploadStrategy (cfg : UploadConfig) (p : PyPath) (size : Nat) :
    UploadStrategy :=
  if isSensitiveFile p then .sensitiveRejected
  else if isTextExtension p ∧ size < cfg.text_message then .inlineText
  else if size < cfg.snippet then .codeSnippet
  else if size < cfg.large then .standardUpload
  else .infoOnly

/-- The two credentials of the client: the bot token (`primary`) and the
optional user token (`elevated`). -/
inductive Credential
  | bot
  | user
deriving DecidableEq

/-- The token `_upload_as_file` uses for the standard upload: the user token
when the size exceeds `self.standard`, the bot token otherwise — identically
in the SDK branch (lines 1421-1432) and in the three-step handshake branch
(lines 1475-1478, 1519-1522). -/
def uploadFileToken (cfg : UploadConfig) (size : Nat) : Credential :=
  if size > cfg.standard then .user else .bot

/-- The oversize gate at the top of `_upload_as_file` (lines 1408-1416):
a file strictly larger than `self.large` is refused before any upload step. -/
def uploadFileTooLarge (cfg : UploadConfig) (size : Nat) : Bool :=
  size > cfg.large

/-- File-content bytes each route transmits toward the remote, read off the
handlers: `_upload_as_message` embeds the content truncated to
`text_message` (lines 1207-1212), `_upload_as_snippet` and `_upload_as_file`
send the whole file, and `_share_file_info` builds its message from `stat`
metadata only — name, formatted size, suffix, path (lines 1580-1598) — so it
moves no file content at all. -/
def fileBytesTransferred (cfg : UploadConfig) (strat : UploadStrategy)
    (size : Nat) : Nat :=
  match strat with
  | .sensitiveRejected => 0
  | .inlineText => min size cfg.text_message
  | .codeSnippet => size
  | .standardUpload => size
  | .infoOnly => 0

/-- C3: for every non-sensitive file, `smart_upload` selects by ascending
size band: known text extension below the inline threshold goes inline;
otherwise below the snippet threshold goes as a snippet; otherwise below the
largest threshold goes as a standard upload, which uses the bot credential
whenever the size does not exceed the standard-plan ceiling.  In particular,
at the default thresholds a 10 KB `.txt` file goes inline, a 900 KB `.csv`
file goes as a snippet, and a 50 MB `.zip` file goes as a standard upload
with the bot credential. -/
theorem smart_upload_band_selection (p : PyPath) (size : Nat)
    (hs : isSensitiveFile p = false) :
    (isTextExtension p = true ∧ size < 51200 →
      smartUploadStrategy defaultUploadConfig p size = .inlineText) ∧
    (¬(isTextExtension p = true ∧ size < 51200) → size < 1048576 →
      smartUploadStrategy defaultUploadConfig p size = .codeSnippet) ∧
    (¬(isTextExtension p = true ∧ size < 51200) → ¬ size < 1048576 →
      size < 1073741824 →
      smartUploadStrategy defaultUploadConfig p size = .standardUpload) ∧
    (size ≤ 104857600 → uploadFileToken defaultUploadConfig size = .bot) := by
  refine ⟨?_, ?_, ?_, ?_⟩
  · intro hband
    simp [smartUploadStrategy, hs, defaultUploadConfig, hband.1, hband.2]
  · intro hnot hband
    simp [smartUploadStrategy, hs, defaultUploadConfig, hnot, hband]
  · intro hnot hnot2 hband
    simp [smartUploadStrategy, hs, defaultUploadConfig, hnot, hnot2, hband]
  · intro hle
    simp [uploadFileToken, defaultUploadConfig]
    omega

/-- A 10 KB plain-text file at an innocuous home path. -/
def examplePathTxt : PyPath := ⟨["/", "home", "alice", "notes.txt"]⟩

/-- A 900 KB `.csv` data file at an innocuous home path. -/
def examplePathCsv : PyPath := ⟨["/", "home", "alice", "data.csv"]⟩

/-- A 50 MB `.zip` archive at an innocuous home path. -/
def examplePathZip : PyPath := ⟨["/", "home", "alice", "archive.zip"]⟩

/-- Witness for C3: the three concrete examples of the claim, each conjunct
obtained from `smart_upload_band_selection` at its size band. -/
theorem smart_upload_band_selection_witness :
    smartUploadStrategy defaultUploadConfig examplePathTxt 10240 =
      .inlineText ∧
    smartUploadStrategy defaultUploadConfig examplePathCsv 921600 =
      .codeSnippet ∧
    smartUploadStrategy defaultUploadConfig examplePathZip 52428800 =
      .standardUpload ∧
    uploadFileToken defaultUploadConfig 52428800 = .bot := by
  refine ⟨?_, ?_, ?_, ?_⟩
  · exact (smart_upload_band_selection examplePathTxt 10240 (by decide)).1
      ⟨by decide, by decide⟩
  · exact (smart_upload_band_selection examplePathCsv 921600 (by decide)).2.1
      (by decide) (by decide)
  · exact (smart_upload_band_selection examplePathZip 52428800
      (by decide)).2.2.1 (by decide) (by decide) (by decide)
  · exact (smart_upload_band_selection examplePathZip 52428800
      (by decide)).2.2.2 (by decide)

/-- A 2 GB binary file at an innocuous home path. -/
def examplePathBig : PyPath := ⟨["/", "home", "alice", "big.bin"]⟩

/-- C4 counterexample: at a 2 GB file (above the 1 GB cap) `smart_upload`
does not terminate with a file-too-large rejection — it routes the file to
the info-only strategy (the final `else` at lines 1776-1778, which sends a
descriptive message via `_share_file_info`); the `size > self.large`
rejection lives only in `_upload_as_file` (lines 1408-1416), which
`smart_upload` never calls for such sizes. -/
theorem oversized_file_not_rejected_counterexample :
    smartUploadStrategy defaultUploadConfig examplePathBig 2147483648 =
      UploadStrategy.infoOnly ∧
    UploadStrategy.infoOnly ≠ UploadStrategy.sensitiveRejected ∧
    fileBytesTransferred defaultUploadConfig UploadStrategy.infoOnly
      2147483648 = 0 := by
  refine ⟨by decide, by decide, rfl⟩

/-- C4 amended: every non-sensitive file at or above the large threshold is
routed by `smart_upload` to the info-only strategy, which transfers zero
bytes of file content; the file-too-large rejection (size strictly above the
cap) exists only in `_upload_as_file`, where it would fire for such a size
if that function were called directly. -/
theorem oversized_file_info_only (p : PyPath) (size : Nat)
    (hs : isSensitiveFile p = false)
    (hbig : defaultUploadConfig.large ≤ size) :
    smartUploadStrategy defaultUploadConfig p size = .infoOnly ∧
    fileBytesTransferred defaultUploadConfig .infoOnly size = 0 ∧
    (defaultUploadConfig.large < size →
      uploadFileTooLarge defaultUploadConfig size = true) := by
  have hb : defaultUploadConfig.large = 1073741824 := rfl
  refine ⟨?_, rfl, ?_⟩
  · have h1 : ¬ size < 1048576 := by omega
    have h2 : ¬ size < 1073741824 := by omega
    have h3 : ¬ (isTextExtension p = true ∧ size < 51200) := by
      rintro ⟨_, hlt⟩; omega
    simp [smartUploadStrategy, hs, defaultUploadConfig, h1, h2, h3]
  · intro hgt
    simp [uploadFileTooLarge, defaultUploadConfig]
    omega

/-- Witness for the amended C4 at the 2 GB example file. -/
theorem oversized_file_info_only_witness :
    smartUploadStrategy defaultUploadConfig examplePathBig 2147483648 =
      .infoOnly ∧
    fileBytesTransferred defaultUploadConfig .infoOnly 2147483648 = 0 := by
  have h := oversized_file_info_only examplePathBig 2147483648
    (by decide) (by decide)
  exact ⟨h.1, h.2.1⟩

/-- C5: a file matching any sensitivity denylist — sensitive extension,
filename keyword, system directory prefix, secret-bearing path segment, or
backup/temp suffix — is rejected by `smart_upload` before any strategy runs,
regardless of size and for every threshold configuration; in particular any
file under a path containing a `.ssh` segment (such as `id_rsa`) is
rejected. -/
theorem sensitive_file_rejected_before_any_strategy (p : PyPath) (size : Nat)
    (cfg : UploadConfig)
    (h : sensitive_extensions.contains (pyLower (pySuffix (pyName p))) = true ∨
         sensitive_names.any (fun s => strContains (pyLower (pyName p)) s) = true ∨
         system_paths.any (fun sp => pyStartsWith (pyPathStr p) sp) = true ∨
         p.parts.any (fun part => sensitive_dirs.contains part) = true ∨
         sensitive_suffixes.any (fun pat => pyEndsWith (pyName p) pat) = true) :
    isSensitiveFile p = true ∧
    smartUploadStrategy cfg p size = .sensitiveRejected ∧
    (∀ (q : PyPath) (sz : Nat) (cfg2 : UploadConfig), ".ssh" ∈ q.parts →
      smartUploadStrategy cfg2 q sz = .sensitiveRejected) := by
  have hsens : isSensitiveFile p = true := by
    simp only [isSensitiveFile, Bool.or_eq_true]
    tauto
  refine ⟨hsens, by simp [smartUploadStrategy, hsens], ?_⟩
  intro q sz cfg2 hssh
  have hq : isSensitiveFile q = true := by
    have hseg : q.parts.any (fun part => sensitive_dirs.contains part) = true := by
      rw [List.any_eq_true]
      exact ⟨".ssh", hssh, by decide⟩
    simp only [isSensitiveFile, Bool.or_eq_true]
    tauto
  simp [smartUploadStrategy, hq]

/-- An `id_rsa` private-key file inside a `.ssh` directory. -/
def examplePathIdRsa : PyPath := ⟨["/", "home", "alice", ".ssh", "id_rsa"]⟩

/-- Witness for C5: the `id_rsa` file under `.ssh` is flagged sensitive and
rejected at the default thresholds and at 1 byte of size. -/
theorem sensitive_file_rejected_witness :
    isSensitiveFile examplePathIdRsa = true ∧
    smartUploadStrategy defaultUploadConfig examplePathIdRsa 1 =
      .sensitiveRejected := by
  have h := sensitive_file_rejected_before_any_strategy examplePathIdRsa 1
    defaultUploadConfig (Or.inr (Or.inr (Or.inr (Or.inl (by decide)))))
  exact ⟨h.1, h.2.1⟩

/-- The `while True` pagination loop of `get_channels` (lines 494-506),
driven by the remote's successive responses: each response is the page's
item list and whether a (truthy) `response_metadata.next_cursor` is present.
Each loop iteration performs one `_make_request` call, appends the page's
items to the accumulator (`all_channels.extend`), and breaks when the
response carries no continuation cursor.  The result pairs the accumulated
items in arrival order with the number of physical requests made; an empty
response list models a remote that stops answering and contributes
nothing. -/
def collectPages {α : Type} : List (List α × Bool) → List α × Nat
  | [] => ([], 0)
  | (items, hasCursor) :: rest =>
    if hasCursor then
      (items ++ (collectPages rest).1, (collectPages rest).2 + 1)
    else (items, 1)

/-- C7: a channel listing whose remote returns pages of sizes [50, 50, 23]
with a continuation cursor on the first two responses and none on the third
makes exactly 3 physical requests and aggregates exactly 123 items, each
page appended to the end of the accumulator in remote-reported order. -/
theorem get_channels_pagination_three_pages {α : Type}
    (p1 p2 p3 : List α)
    (h1 : p1.length = 50) (h2 : p2.length = 50) (h3 : p3.length = 23) :
    collectPages [(p1, true), (p2, true), (p3, false)] =
      (p1 ++ p2 ++ p3, 3) ∧
    (p1 ++ p2 ++ p3).length = 123 := by
  constructor
  · simp [collectPages, List.append_assoc]
  · simp [h1, h2, h3]

/-- Witness for C7 on concrete pages 0-49, 50-99 and 100-122. -/
theorem get_channels_pagination_three_pages_witness :
    collectPages [(List.range 50, true),
                  ((List.range 50).map (fun n => n + 50), true),
                  ((List.range 23).map (fun n => n + 100), false)] =
      (List.range 50 ++ (List.range 50).map (fun n => n + 50) ++
        (List.range 23).map (fun n => n + 100), 3) ∧
    (List.range 50 ++ (List.range 50).map (fun n => n + 50) ++
      (List.range 23).map (fun n => n + 100)).length = 123 :=
  get_channels_pagination_three_pages _ _ _
    (by simp) (by simp) (by simp)

/-- One Slack user record, restricted to the fields `get_users` and
`_categorize_user_type` read (lines 604-652). -/
structure SlackUser where
  id : String
  deleted : Bool
  is_bot : Bool
  is_owner : Bool
  is_admin : Bool
  is_restricted : Bool
  is_ultra_restricted : Bool
deriving DecidableEq

/-- The `_categorize_user_type` classification (lines 604-617). -/
def categorizeUserType (u : SlackUser) : String :=
  if u.is_bot then "bot"
  else if u.is_owner then "owner"
  else if u.is_admin then "admin"
  else if u.is_ultra_restricted then "single_channel_guest"
  else if u.is_restricted then "multi_channel_guest"
  else "member"

/-- One `users.list` response envelope: the `members` page and the optional
`response_metadata.next_cursor` — which `get_users` never reads. -/
structure UsersListResponse where
  members : List SlackUser
  next_cursor : Option String
deriving DecidableEq

/-- The limit clamping of `get_users` (lines 626-627):
`min(limit or default_limit, 200)` with the default of 50, where a limit of
0 is falsy in Python and is replaced by the default. -/
def effUserLimit (limit : Nat) : Nat :=
  min (if limit = 0 then 50 else limit) 200

/-- The caller type filter of `get_users` (line 650):
`if user_types and user_type not in user_types: continue` — a `None` or
empty list is falsy and disables the filter. -/
def typeFilterSkips (userTypes : Option (List String)) (t : String) : Bool :=
  match userTypes with
  | none => false
  | some l => !l.isEmpty && !l.contains t

/-- The member loop of `get_users` (lines 638-674): skip deleted users and
`USLACKBOT` first, then skip bots unless requested, then apply the caller
type filter, append the survivor, and break once the accumulated count
reaches the limit.  `cnt` is the number of users already accumulated. -/
def getUsersLoop (includeBots : Bool) (userTypes : Option (List String))
    (limit : Nat) : Nat → List SlackUser → List SlackUser
  | _, [] => []
  | cnt, u :: rest =>
    if u.deleted || u.id == "USLACKBOT" then
      getUsersLoop includeBots userTypes limit cnt rest
    else if !includeBots && u.is_bot then
      getUsersLoop includeBots userTypes limit cnt rest
    else if typeFilterSkips userTypes (categorizeUserType u) then
      getUsersLoop includeBots userTypes limit cnt rest
    else if cnt + 1 ≥ limit then [u]
    else u :: getUsersLoop includeBots userTypes limit (cnt + 1) rest

/-- The whole `get_users` call (lines 619-677) against a cursor-paginated
remote, modelled as the sequence of responses the remote would serve for
successive cursors: the source performs exactly one `_make_request`
(line 634) with no cursor parameter and no loop, so only `remote 0` — the
first page — is ever consulted; the pair's second component counts the
physical requests made. -/
def getUsersRun (includeBots : Bool) (limit : Nat)
    (userTypes : Option (List String)) (remote : Nat → UsersListResponse) :
    List SlackUser × Nat :=
  (getUsersLoop includeBots userTypes (effUserLimit limit) 0
    (remote 0).members, 1)

theorem getUsersLoop_length_le (includeBots : Bool)
    (userTypes : Option (List String)) (limit : Nat) :
    ∀ (ms : List SlackUser) (cnt : Nat), cnt < limit →
      (getUsersLoop includeBots userTypes limit cnt ms).length ≤ limit - cnt := by
  intro ms
  induction ms with
  | nil => intro cnt h; simp [getUsersLoop]
  | cons u rest ih =>
    intro cnt h
    unfold getUsersLoop
    by_cases h1 : u.deleted || u.id == "USLACKBOT"
    · simp only [h1, if_true]
      exact ih cnt h
    · simp only [h1, if_false]
      by_cases h2 : !includeBots && u.is_bot
      · simp only [h2, if_true]
        exact ih cnt h
      · simp only [h2, if_false]
        by_cases h3 : typeFilterSkips userTypes (categorizeUserType u)
        · simp only [h3, if_true]
          exact ih cnt h
        · simp only [h3, if_false]
          by_cases h4 : cnt + 1 ≥ limit
          · rw [if_pos h4]
            simp
            omega
          · rw [if_neg h4]
            have h5 := ih (cnt + 1) (by omega)
            simp
            omega

/-- A plain active member on the remote's first page. -/
def exampleUserOne : SlackUser := ⟨"U1", false, false, false, false, false, false⟩

/-- A plain active member the remote only serves on its second page. -/
def exampleUserTwo : SlackUser := ⟨"U2", false, false, false, false, false, false⟩

/-- A two-page remote: page 0 holds `exampleUserOne` and carries a
continuation cursor, page 1 holds `exampleUserTwo` with no cursor. -/
def twoPageRemote : Nat → UsersListResponse := fun n =>
  if n = 0 then ⟨[exampleUserOne], some "cursor1"⟩ else ⟨[exampleUserTwo], none⟩

/-- C8 counterexample: against a remote whose first `users.list` response
carries a continuation cursor and whose second page holds a further plain
member, `get_users` makes exactly one physical request and returns only the
first page — `exampleUserTwo` passes every declared filter yet is missing
from the result, so the listing is not cursor-paginated and does silently
truncate. -/
theorem get_users_single_request_counterexample :
    (getUsersRun false 50 none twoPageRemote).2 = 1 ∧
    (getUsersRun false 50 none twoPageRemote).1 = [exampleUserOne] ∧
    exampleUserTwo ∉ (getUsersRun false 50 none twoPageRemote).1 ∧
    (twoPageRemote 0).next_cursor = some "cursor1" ∧
    exampleUserTwo ∈ (twoPageRemote 1).members ∧
    exampleUserTwo.deleted = false ∧ exampleUserTwo.is_bot = false := by
  refine ⟨rfl, by decide, by decide, rfl, by decide, rfl, rfl⟩

/-- C8 amended: `get_users` is not paginated — it issues exactly one
physical request, its output depends only on the first page's member list
(any continuation cursor and all later pages are ignored), and it returns at
most `min(limit or 50, 200)` users. -/
theorem get_users_not_paginated (includeBots : Bool) (limit : Nat)
    (userTypes : Option (List String))
    (remote remote2 : Nat → UsersListResponse)
    (hsame : (remote 0).members = (remote2 0).members) :
    (getUsersRun includeBots limit userTypes remote).2 = 1 ∧
    getUsersRun includeBots limit userTypes remote =
      getUsersRun includeBots limit userTypes remote2 ∧
    (getUsersRun includeBots limit userTypes remote).1.length ≤
      effUserLimit limit := by
  refine ⟨rfl, ?_, ?_⟩
  · simp [getUsersRun, hsame]
  · have hpos : 0 < effUserLimit limit := by
      unfold effUserLimit
      by_cases h : limit = 0
      · rw [if_pos h]; decide
      · rw [if_neg h]; omega
    have := getUsersLoop_length_le includeBots userTypes (effUserLimit limit)
      (remote 0).members 0 hpos
    simpa [getUsersRun] using this

/-- A one-page remote serving the same first page as `twoPageRemote` but
with no continuation cursor and nothing afterwards. -/
def onePageRemote : Nat → UsersListResponse := fun n =>
  if n = 0 then ⟨[exampleUserOne], none⟩ else ⟨[], none⟩

/-- Witness for the amended C8: the run against the two-page remote equals
the run against the cursor-less one-page remote and makes one request. -/
theorem get_users_not_paginated_witness :
    (getUsersRun false 50 none twoPageRemote).2 = 1 ∧
    getUsersRun false 50 none twoPageRemote =
      getUsersRun false 50 none onePageRemote := by
  have h := get_users_not_paginated false 50 none twoPageRemote onePageRemote
    (by decide)
  exact ⟨h.1, h.2.1⟩

theorem getUsersLoop_mem (includeBots : Bool)
    (userTypes : Option (List String)) (limit : Nat) :
    ∀ (ms : List SlackUser) (cnt : Nat) (u : SlackUser),
      u ∈ getUsersLoop includeBots userTypes limit cnt ms →
      u.deleted = false ∧ u.id ≠ "USLACKBOT" := by
  intro ms
  induction ms with
  | nil => intro cnt u h; simp [getUsersLoop] at h
  | cons v rest ih =>
    intro cnt u h
    unfold getUsersLoop at h
    by_cases h1 : v.deleted || v.id == "USLACKBOT"
    · rw [if_pos h1] at h
      exact ih cnt u h
    · rw [if_neg h1] at h
      have hv : v.deleted = false ∧ v.id ≠ "USLACKBOT" := by
        simp only [Bool.or_eq_true, beq_iff_eq, not_or] at h1
        push_neg at h1
        exact ⟨by simpa using h1.1, h1.2⟩
      by_cases h2 : !includeBots && v.is_bot
      · rw [if_pos h2] at h
        exact ih cnt u h
      · rw [if_neg h2] at h
        by_cases h3 : typeFilterSkips userTypes (categorizeUserType v)
        · rw [if_pos h3] at h
          exact ih cnt u h
        · rw [if_neg h3] at h
          by_cases h4 : cnt + 1 ≥ limit
          · rw [if_pos h4] at h
            simp at h
            exact h ▸ hv
          · rw [if_neg h4] at h
            rcases List.mem_cons.mp h with hh | hh
            · exact hh ▸ hv
            · exact ih (cnt + 1) u hh

/-- C10: for every remote response and every combination of the
`include_bots`, `limit` and `user_types` arguments, the list `get_users`
returns contains no user marked deleted and never the built-in `USLACKBOT`
user — the skip at lines 639-641 runs before the bot filter and the caller
type filter. -/
theorem get_users_excludes_deleted_and_slackbot (includeBots : Bool)
    (limit : Nat) (userTypes : Option (List String))
    (remote : Nat → UsersListResponse) (u : SlackUser)
    (hmem : u ∈ (getUsersRun includeBots limit userTypes remote).1) :
    u.deleted = false ∧ u.id ≠ "USLACKBOT" :=
  getUsersLoop_mem includeBots userTypes (effUserLimit limit)
    (remote 0).members 0 u hmem

/-- A remote first page that mixes a deleted user, `USLACKBOT`, a bot and a
plain member. -/
def mixedRemote : Nat → UsersListResponse := fun _ =>
  ⟨[⟨"U9", true, false, false, false, false, false⟩,
    ⟨"USLACKBOT", false, false, false, false, false, false⟩,
    ⟨"B1", false, true, false, false, false, false⟩,
    exampleUserOne], none⟩

/-- Witness for C10: `exampleUserOne` survives the mixed page, and the
theorem yields that it is neither deleted nor `USLACKBOT`. -/
theorem get_users_excludes_witness :
    exampleUserOne.deleted = false ∧ exampleUserOne.id ≠ "USLACKBOT" :=
  get_users_excludes_deleted_and_slackbot true 50 none mixedRemote
    exampleUserOne (by decide)

/-- Token availability in the client: whether the optional user token
(`self.user_token`) survived construction. -/
structure TokenConfig where
  hasUserToken : Bool
deriving DecidableEq

/-- The `_get_headers` credential selection (lines 238-246): a request that
needs the user token raises a `ValueError` when it is absent, and never
falls back to the bot token; bot-token requests always succeed. -/
def getHeaders (tc : TokenConfig) (useUserToken : Bool) :
    Except String Credential :=
  if useUserToken then
    if tc.hasUserToken then Except.ok Credential.user
    else Except.error "missing_user_token"
  else Except.ok Credential.bot

/-- Outcome of the `search_messages` entry guard (lines 869-875): with no
user token the call returns the dedicated failure envelope mentioning
`SLACK_USER_TOKEN` before any request is made; otherwise it proceeds with
the user token. -/
inductive SearchOutcome
  | missingUserTokenError
  | proceedsWithUserToken
deriving DecidableEq

/-- The `search_messages` guard (lines 869-875). -/
def searchMessagesGate (tc : TokenConfig) : SearchOutcome :=
  if tc.hasUserToken then .proceedsWithUserToken else .missingUserTokenError

/-- How `_upload_as_file` authorizes the upload of a file of the given size.
In the SDK branch (lines 1419-1432) a size above `self.standard` constructs
`AsyncWebClient(token=self.user_token)` directly — when the user token is
`None` this proceeds with an absent credential instead of failing with the
declared error.  In the handshake branch (lines 1475-1478) the same size
check routes through `_make_request(..., use_user_token=True)`, whose
`_get_headers` raises the declared `ValueError`.  Sizes within `standard`
always use the bot token in both branches. -/
inductive UploadAuthOutcome
  | usesBot
  | usesElevated
  | proceedsWithAbsentElevated
  | failsMissingElevated
deriving DecidableEq

/-- The authorization path of `_upload_as_file` as a function of SDK
availability, token availability and file size. -/
def uploadFileAuth (sdkAvailable : Bool) (tc : TokenConfig)
    (cfg : UploadConfig) (size : Nat) : UploadAuthOutcome :=
  if sdkAvailable then
    if size > cfg.standard then
      if tc.hasUserToken then .usesElevated else .proceedsWithAbsentElevated
    else .usesBot
  else
    if size > cfg.standard then
      if tc.hasUserToken then .usesElevated else .failsMissingElevated
    else .usesBot

/-- C9 counterexample: with the SDK available, no user token, and a file one
byte above the standard ceiling, `_upload_as_file` does not fail with the
declared missing-credential error — it builds the SDK client with the absent
token and proceeds (lines 1421-1428). -/
theorem missing_user_token_sdk_upload_counterexample :
    uploadFileAuth true ⟨false⟩ defaultUploadConfig 104857601 =
      UploadAuthOutcome.proceedsWithAbsentElevated ∧
    UploadAuthOutcome.proceedsWithAbsentElevated ≠
      UploadAuthOutcome.failsMissingElevated := by
  exact ⟨by decide, by decide⟩

/-- C9 amended: elevated-gated operations never silently downgrade to the
bot token; message search and the non-SDK upload handshake fail with the
distinct declared missing-credential error when the user token is absent;
but the SDK upload branch for sizes above the standard ceiling proceeds
with the absent token rather than failing with that declared error. -/
theorem elevated_gating_behavior (tc : TokenConfig) (cfg : UploadConfig)
    (size : Nat) (habs : tc.hasUserToken = false) :
    searchMessagesGate tc = .missingUserTokenError ∧
    getHeaders tc true = Except.error "missing_user_token" ∧
    (size > cfg.standard →
      uploadFileAuth false tc cfg size = .failsMissingElevated) ∧
    (size > cfg.standard → ∀ sdk : Bool,
      uploadFileAuth sdk tc cfg size ≠ .usesBot) ∧
    (size > cfg.standard →
      uploadFileAuth true tc cfg size = .proceedsWithAbsentElevated) := by
  refine ⟨?_, ?_, ?_, ?_, ?_⟩
  · simp [searchMessagesGate, habs]
  · simp [getHeaders, habs]
  · intro hgt; simp [uploadFileAuth, habs, hgt]
  · intro hgt sdk
    cases sdk <;> simp [uploadFileAuth, habs, hgt]
  · intro hgt; simp [uploadFileAuth, habs, hgt]

/-- Witness for the amended C9 with no user token and a 100 MB + 1 byte
file at the default thresholds. -/
theorem elevated_gating_behavior_witness :
    searchMessagesGate ⟨false⟩ = .missingUserTokenError ∧
    getHeaders ⟨false⟩ true = Except.error "missing_user_token" ∧
    uploadFileAuth false ⟨false⟩ defaultUploadConfig 104857601 =
      .failsMissingElevated := by
  have h := elevated_gating_behavior ⟨false⟩ defaultUploadConfig 104857601 rfl
  exact ⟨h.1, h.2.1, h.2.2.1 (by decide)⟩

/-- How the attempted snippet upload inside `_upload_as_snippet` can end:
the SDK call succeeds; it raises this module's own `SlackAPIError` class
(the only class the inner `except` at line 1314 catches); or it raises any
other exception — in particular `slack_sdk.errors.SlackApiError`, the class
the SDK actually raises on an API failure, which is a different type from
the module's `SlackAPIError`. -/
inductive SnippetAttemptOutcome
  | ok
  | raisesClientSlackAPIError
  | raisesOtherException
deriving DecidableEq

/-- Result of `_upload_as_snippet` (lines 1253-1329). -/
inductive SnippetResult
  | snippetSuccess
  | fellBackToStandardUpload
  | failedOutright
deriving DecidableEq

/-- The control flow of `_upload_as_snippet`: with the SDK available the
snippet upload is attempted; only a raised module-`SlackAPIError` reaches
the inner `except` (line 1314) and falls through to `_upload_as_file`
(line 1317); any other exception escapes to the outer `except Exception`
(line 1323) and is returned as a failure with method `code_snippet`.
Without the SDK the code goes straight to `_upload_as_file`. -/
def uploadAsSnippet (sdkAvailable : Bool) (attempt : SnippetAttemptOutcome) :
    SnippetResult :=
  if sdkAvailable then
    match attempt with
    | .ok => .snippetSuccess
    | .raisesClientSlackAPIError => .fellBackToStandardUpload
    | .raisesOtherException => .failedOutright
  else .fellBackToStandardUpload

/-- C6: contrary to the claim that every failure of the snippet attempt
falls back to the standard upload path, a snippet attempt that raises
anything other than the module's own `SlackAPIError` — which is what
`files_upload_v2` actually raises, namely `slack_sdk.errors.SlackApiError`
— is returned as an outright failure with no fallback.  The inner `except`
names its variable `sdk_error` and logs a fallback attempt for SDK upload
failures, yet the caught class is one the SDK never raises, so the intended
fallback never runs for real SDK failures. -/
theorem snippet_failure_no_fallback_bug :
    uploadAsSnippet true .raisesOtherException = .failedOutright ∧
    SnippetResult.failedOutright ≠ SnippetResult.fellBackToStandardUpload ∧
    uploadAsSnippet true .raisesClientSlackAPIError =
      .fellBackToStandardUpload := by
  exact ⟨rfl, by decide, rfl⟩

end SlackGateway
